import Mathlib

/-!
Shallow embedding of the Smart Grain Cooking Monitoring System simulator
(`src/simulator.js`).  Machine floating-point arithmetic is modelled over
the rationals; JavaScript `Math.floor` becomes `Int.floor`, `%` becomes
`Int.emod`, `toFixed(k)` becomes rounding to `k` decimal places over `ℚ`,
and `Math.max`/`Math.min` become `max`/`min`.  Log messages are modelled
as structured events carrying the numeric payloads that the source
interpolates into its strings; the log logic never inspects message
content, only entry times.
-/

namespace GrainSim

/-- The five cooking phases (`COOKING_PHASES` in the source), in process
order. -/
inductive Phase where
  | MICROWAVE
  | TRANSFER
  | PRESSURE
  | COOLING
  | DONE
deriving DecidableEq, Repr

/-- Position of a phase in the process order
MICROWAVE < TRANSFER < PRESSURE < COOLING < DONE. -/
def phaseIdx : Phase → ℕ
  | .MICROWAVE => 0
  | .TRANSFER => 1
  | .PRESSURE => 2
  | .COOLING => 3
  | .DONE => 4

/-- A grain profile, mirroring one entry of `GRAIN_PROFILES`. -/
structure GrainProfile where
  name : String
  starch : ℚ
  protein : ℚ
  amylose : ℚ
  amylopectin : ℚ
  initial_moisture : ℚ
  target_moisture : ℚ
  gelatinization_onset : ℚ
  gelatinization_temp : ℚ
  optimal_cook_time : ℚ
  weight : ℚ
  nir_970 : ℚ
  nir_1450 : ℚ
  nir_1680 : ℚ
  nir_1200 : ℚ
  nir_2100 : ℚ
deriving DecidableEq, Repr

/-- `GRAIN_PROFILES.basmati_rice`. -/
def basmati_rice : GrainProfile :=
  { name := "Basmati Rice", starch := 78, protein := 7, amylose := 22,
    amylopectin := 78, initial_moisture := 12, target_moisture := 65,
    gelatinization_onset := 65.9, gelatinization_temp := 68,
    optimal_cook_time := 10, weight := 100, nir_970 := 0.18,
    nir_1450 := 0.22, nir_1680 := 0.15, nir_1200 := 0.65, nir_2100 := 0.72 }

/-- `GRAIN_PROFILES.chickpeas`. -/
def chickpeas : GrainProfile :=
  { name := "Chickpeas", starch := 45, protein := 20, amylose := 30,
    amylopectin := 70, initial_moisture := 10, target_moisture := 70,
    gelatinization_onset := 72, gelatinization_temp := 75,
    optimal_cook_time := 20, weight := 100, nir_970 := 0.15,
    nir_1450 := 0.19, nir_1680 := 0.38, nir_1200 := 0.52, nir_2100 := 0.68 }

/-- `GRAIN_PROFILES.lentils`. -/
def lentils : GrainProfile :=
  { name := "Red Lentils", starch := 50, protein := 25, amylose := 25,
    amylopectin := 75, initial_moisture := 11, target_moisture := 68,
    gelatinization_onset := 65, gelatinization_temp := 70,
    optimal_cook_time := 14, weight := 100, nir_970 := 0.16,
    nir_1450 := 0.2, nir_1680 := 0.42, nir_1200 := 0.58, nir_2100 := 0.7 }

/-- `GRAIN_PROFILES.quinoa`. -/
def quinoa : GrainProfile :=
  { name := "Quinoa", starch := 64, protein := 14, amylose := 15,
    amylopectin := 85, initial_moisture := 10, target_moisture := 62,
    gelatinization_onset := 61, gelatinization_temp := 65,
    optimal_cook_time := 12, weight := 100, nir_970 := 0.14,
    nir_1450 := 0.18, nir_1680 := 0.28, nir_1200 := 0.6, nir_2100 := 0.78 }

/-- The registry `GRAIN_PROFILES`, looked up by string key as in the
source's object access. -/
def GRAIN_PROFILES (id : String) : Option GrainProfile :=
  if id = "basmati_rice" then some basmati_rice
  else if id = "chickpeas" then some chickpeas
  else if id = "lentils" then some lentils
  else if id = "quinoa" then some quinoa
  else none

/-- The four one-shot latches (`nirScanLoggedRef`, `gelOnsetLoggedRef`,
`gelCompleteLoggedRef`, `transferLoggedRef`). -/
structure LatchState where
  nirScanLogged : Bool
  gelOnsetLogged : Bool
  gelCompleteLogged : Bool
  transferLogged : Bool
deriving DecidableEq, Repr

/-- All latches false, as at the start of a run / after `handleReset`. -/
def initialLatch : LatchState :=
  { nirScanLogged := false, gelOnsetLogged := false,
    gelCompleteLogged := false, transferLogged := false }

/-- A decision-log message.  Each constructor corresponds to one
`addDecision` call site in the source, carrying the numeric payloads that
the source's template string interpolates. -/
inductive Event where
  | nirScan (n970 n1450 n1680 n1200 n2100 : ℚ)
  | composition (moisture starch protein amylose amylopectin : ℚ)
  | gelOnset (onset velocity : ℚ)
  | transferVessel
  | gelComplete (velocity : ℚ)
  | microwaveStatus (power temp moisture : ℚ)
  | pressureBuilding (pressure velocity : ℚ)
  | pressureHolding (pressure velocity : ℚ)
  | depressurizing (pressure temp : ℚ)
  | cookingComplete (moisture velocity : ℚ)
deriving DecidableEq, Repr

/-- One point of the simulated series, as returned by `simulateCooking`.
`time` is in minutes, rounded to two decimals
(`parseFloat((time / 60).toFixed(2))`). -/
structure Sample where
  time : ℚ
  moisture : ℚ
  temperature : ℚ
  pressure : ℚ
  ultrasonicVelocity : ℚ
  microwavePower : ℚ
  gelatinizationProgress : ℚ
  phase : Phase
deriving DecidableEq, Repr

/-- Result of one engine invocation: the sample, the candidate log events
(paired with the second-denominated time passed to `addDecision`), and the
updated latch state. -/
structure EngineResult where
  sample : Sample
  events : List (ℚ × Event)
  latch : LatchState
deriving DecidableEq, Repr

/-- `x.toFixed(k)`-style rounding of a rational to `k = 1` decimal place,
as an integer number of tenths. -/
def tenths (x : ℚ) : ℤ := round (10 * x)

/-- `parseFloat(x.toFixed(2))`: round to two decimal places. -/
def round2 (x : ℚ) : ℚ := (round (100 * x) : ℚ) / 100

/-- `cookTime = grain.optimal_cook_time * 60` (seconds). -/
def cookTime (grain : GrainProfile) : ℚ := grain.optimal_cook_time * 60

/-- The simulation engine, `simulateCooking(time)` from the source, with
the profile and the module-level latch refs made explicit arguments.
Every mutation of a latch ref becomes a functional update; every
`addDecision(time, msg)` call becomes an emitted `(time, msg)` pair, in
source order. -/
def simulateCooking (grain : GrainProfile) (time : ℚ) (latch : LatchState) :
    EngineResult :=
  let cookTime := grain.optimal_cook_time * 60
  -- t === 0 NIR-scan / composition block, gated by nirScanLoggedRef
  let nirFire := time = 0 ∧ latch.nirScanLogged = false
  let events0 : List (ℚ × Event) :=
    if nirFire then
      [(0, Event.nirScan grain.nir_970 grain.nir_1450 grain.nir_1680
            grain.nir_1200 grain.nir_2100),
       (0, Event.composition grain.initial_moisture grain.starch
            grain.protein grain.amylose grain.amylopectin)]
    else []
  let latch0 : LatchState :=
    if nirFire then { latch with nirScanLogged := true } else latch
  if time < cookTime * 0.45 then
    let microwaveProgress := time / (cookTime * 0.45)
    let moisture := grain.initial_moisture +
      (45 - grain.initial_moisture) * microwaveProgress
    let temperature := 25 + (grain.gelatinization_temp + 15) * microwaveProgress
    let microwavePower := 40 + 40 * microwaveProgress
    let ultrasonicVelocity := 1500 + 120 * microwaveProgress
    let gelatinizationProgress :=
      if temperature ≥ grain.gelatinization_onset then
        let onsetProgress := (grain.gelatinization_onset - 25) /
          (grain.gelatinization_temp + 15 - 25)
        let progressSinceOnset := (microwaveProgress - onsetProgress) /
          (1 - onsetProgress)
        max 0 (min 60 (progressSinceOnset * 60))
      else 0
    let onsetFire := temperature ≥ grain.gelatinization_onset ∧
      latch0.gelOnsetLogged = false
    let events1 : List (ℚ × Event) :=
      if onsetFire then
        [(time, Event.gelOnset grain.gelatinization_onset ultrasonicVelocity)]
      else []
    let latch1 : LatchState :=
      if onsetFire then { latch0 with gelOnsetLogged := true } else latch0
    let events2 : List (ℚ × Event) :=
      if microwaveProgress > 0.2 ∧ (⌊time⌋ % 60 = 0) then
        [(time, Event.microwaveStatus microwavePower temperature moisture)]
      else []
    { sample :=
        { time := round2 (time / 60)
          moisture := moisture
          temperature := temperature
          pressure := 1
          ultrasonicVelocity := ultrasonicVelocity
          microwavePower := microwavePower
          gelatinizationProgress := gelatinizationProgress
          phase := Phase.MICROWAVE }
      events := events0 ++ events1 ++ events2
      latch := latch1 }
  else if time < cookTime * 0.48 then
    let transferFire := latch0.transferLogged = false
    let events1 : List (ℚ × Event) :=
      if transferFire then [(time, Event.transferVessel)] else []
    let latch1 : LatchState :=
      if transferFire then { latch0 with transferLogged := true } else latch0
    { sample :=
        { time := round2 (time / 60)
          moisture := 45
          temperature := grain.gelatinization_temp + 15
          pressure := 1
          ultrasonicVelocity := 1620
          microwavePower := 0
          gelatinizationProgress := 60
          phase := Phase.TRANSFER }
      events := events0 ++ events1
      latch := latch1 }
  else if time < cookTime * 0.85 then
    let pressureProgress := (time - cookTime * 0.48) / (cookTime * 0.37)
    let moisture := 45 + (grain.target_moisture - 45) * pressureProgress
    let temperature := grain.gelatinization_temp + 15 +
      (100 - grain.gelatinization_temp - 15) * pressureProgress
    let ultrasonicVelocity := 1620 + 70 * pressureProgress
    let gelatinizationProgress := 60 + 40 * pressureProgress
    let pressure :=
      if pressureProgress < 0.15 then
        1.0 + (2.2 - 1.0) * (pressureProgress / 0.15)
      else 2.2
    let completeFire := pressureProgress > 0.6 ∧
      latch0.gelCompleteLogged = false
    let events1 : List (ℚ × Event) :=
      if completeFire then [(time, Event.gelComplete ultrasonicVelocity)]
      else []
    let latch1 : LatchState :=
      if completeFire then { latch0 with gelCompleteLogged := true }
      else latch0
    let events2 : List (ℚ × Event) :=
      if pressureProgress < 0.15 ∧ (⌊time⌋ % 40 = 0) then
        [(time, Event.pressureBuilding pressure ultrasonicVelocity)]
      else if pressureProgress ≥ 0.15 ∧ (⌊time⌋ % 80 = 0) then
        [(time, Event.pressureHolding pressure ultrasonicVelocity)]
      else []
    { sample :=
        { time := round2 (time / 60)
          moisture := moisture
          temperature := temperature
          pressure := pressure
          ultrasonicVelocity := ultrasonicVelocity
          microwavePower := 0
          gelatinizationProgress := gelatinizationProgress
          phase := Phase.PRESSURE }
      events := events0 ++ events1 ++ events2
      latch := latch1 }
  else
    let phase := if time < cookTime * 0.95 then Phase.COOLING else Phase.DONE
    let coolProgress := (time - cookTime * 0.85) / (cookTime * 0.15)
    let moisture := grain.target_moisture - 2 * coolProgress
    let temperature := 100 - 35 * coolProgress
    let pressure := 2.2 - 1.2 * coolProgress
    let ultrasonicVelocity := 1690 - 10 * coolProgress
    let events1 : List (ℚ × Event) :=
      if coolProgress < 0.3 ∧ (⌊time⌋ % 30 = 0) then
        [(time, Event.depressurizing pressure temperature)]
      else []
    let events2 : List (ℚ × Event) :=
      if phase = Phase.DONE ∧ (⌊time⌋ % 20 = 0) then
        [(time, Event.cookingComplete moisture ultrasonicVelocity)]
      else []
    { sample :=
        { time := round2 (time / 60)
          moisture := moisture
          temperature := temperature
          pressure := pressure
          ultrasonicVelocity := ultrasonicVelocity
          microwavePower := 0
          gelatinizationProgress := 100
          phase := phase }
      events := events0 ++ events1 ++ events2
      latch := latch0 }

/-- An entry of the Decision Log: time in minutes plus the message. -/
structure DecisionEntry where
  time : ℚ
  message : Event
deriving DecidableEq, Repr

/-- `addDecision(time, message)` from the source: append
`{time: time/60, message}` unless some existing entry's time renders to
the same one-decimal string (`toFixed(1)`), i.e. rounds to the same number
of tenths of a minute. -/
def addDecision (prev : List DecisionEntry) (time : ℚ) (message : Event) :
    List DecisionEntry :=
  let timeKey := tenths (time / 60)
  let exists_ := prev.any (fun d => tenths d.time = timeKey)
  if exists_ then prev
  else prev ++ [{ time := time / 60, message := message }]

/-- Record a batch of engine-emitted events into the log, in emission
order (each `addDecision` call of `simulateCooking`, in source order). -/
def recordEvents (log : List DecisionEntry) (evs : List (ℚ × Event)) :
    List DecisionEntry :=
  evs.foldl (fun l e => addDecision l e.1 e.2) log

/-- `setDecisions([])` in `handleReset`: clearing the log. -/
def clearDecisions : List DecisionEntry := []

/-- `calculateWaterRequired`'s ratio table `waterRatios`, looked up by the
selected grain key. -/
def waterRatios (id : String) : Option ℚ :=
  if id = "basmati_rice" then some 1.5
  else if id = "chickpeas" then some 3.0
  else if id = "lentils" then some 2.5
  else if id = "quinoa" then some 2.0
  else none

/-- `calculateWaterRequired()`: `(grainWeight * ratio).toFixed(1)` with
`ratio = waterRatios[selectedGrain] || 2.0`, modelled as the rounded value
in tenths. -/
def calculateWaterRequired (selectedGrain : String) (grainWeight : ℚ) : ℚ :=
  let ratio := (waterRatios selectedGrain).getD 2.0
  (round (10 * (grainWeight * ratio)) : ℚ) / 10

/-- Closed form of the phase assignment of `simulateCooking` (verified
against it by `simulateCooking_phase`). -/
def phaseAt (grain : GrainProfile) (time : ℚ) : Phase :=
  if time < cookTime grain * 0.45 then Phase.MICROWAVE
  else if time < cookTime grain * 0.48 then Phase.TRANSFER
  else if time < cookTime grain * 0.85 then Phase.PRESSURE
  else if time < cookTime grain * 0.95 then Phase.COOLING
  else Phase.DONE

/-- Closed form of the `gelatinizationProgress` field of
`simulateCooking`'s sample (verified against it by `simulateCooking_gel`). -/
def gelProgress (grain : GrainProfile) (time : ℚ) : ℚ :=
  if time < cookTime grain * 0.45 then
    let microwaveProgress := time / (cookTime grain * 0.45)
    let temperature := 25 + (grain.gelatinization_temp + 15) * microwaveProgress
    if temperature ≥ grain.gelatinization_onset then
      let onsetProgress := (grain.gelatinization_onset - 25) /
        (grain.gelatinization_temp + 15 - 25)
      max 0 (min 60 ((microwaveProgress - onsetProgress) /
        (1 - onsetProgress) * 60))
    else 0
  else if time < cookTime grain * 0.48 then 60
  else if time < cookTime grain * 0.85 then
    60 + 40 * ((time - cookTime grain * 0.48) / (cookTime grain * 0.37))
  else 100

/-- Closed form of the `moisture` field of `simulateCooking`'s sample
(verified against it by `simulateCooking_moisture`). -/
def moistureAt (grain : GrainProfile) (time : ℚ) : ℚ :=
  if time < cookTime grain * 0.45 then
    grain.initial_moisture +
      (45 - grain.initial_moisture) * (time / (cookTime grain * 0.45))
  else if time < cookTime grain * 0.48 then 45
  else if time < cookTime grain * 0.85 then
    45 + (grain.target_moisture - 45) *
      ((time - cookTime grain * 0.48) / (cookTime grain * 0.37))
  else
    grain.target_moisture -
      2 * ((time - cookTime grain * 0.85) / (cookTime grain * 0.15))

/-- Run the engine over a list of invocation times, threading the latch
state from each call to the next (as the driver does) and concatenating
the emitted events. -/
def runEngine (grain : GrainProfile) (latch : LatchState) :
    List ℚ → List (ℚ × Event) × LatchState
  | [] => ([], latch)
  | t :: ts =>
    let r := simulateCooking grain t latch
    let rest := runEngine grain r.latch ts
    (r.events ++ rest.1, rest.2)

/-- Number of emitted events whose message satisfies `p`. -/
def countEvents (p : Event → Bool) (evs : List (ℚ × Event)) : ℕ :=
  (evs.filter (fun e => p e.2)).length

/-- Whether a message is the NIR-scan event. -/
def isNirScan : Event → Bool
  | .nirScan _ _ _ _ _ => true
  | _ => false

/-- Whether a message is the composition event. -/
def isComposition : Event → Bool
  | .composition _ _ _ _ _ => true
  | _ => false

/-- Whether a message is the gelatinization-onset event. -/
def isGelOnset : Event → Bool
  | .gelOnset _ _ => true
  | _ => false

/-- Whether a message is the vessel-transfer event. -/
def isTransfer : Event → Bool
  | .transferVessel => true
  | _ => false

/-- Whether a message is the gelatinization-complete event. -/
def isGelComplete : Event → Bool
  | .gelComplete _ => true
  | _ => false

/-- Remaining emission budget of a one-shot latch: 1 while the latch is
still false, 0 once it has fired. -/
def budget (b : Bool) : ℕ := if b then 0 else 1

/-- The driver state handled by the tick loop (`useEffect` with
`setInterval`): elapsed simulated seconds, accumulated series, decision
log, latch refs, and the running flag. -/
structure DriverState where
  simTime : ℚ
  data : List Sample
  decisions : List DecisionEntry
  latch : LatchState
  isRunning : Bool
deriving DecidableEq, Repr

/-- Driver state right after `handleReset` followed by pressing Start. -/
def initialDriverState : DriverState :=
  { simTime := 0, data := [], decisions := [], latch := initialLatch,
    isRunning := true }

/-- `TIME_INCREMENT = (UPDATE_INTERVAL / 1000) * speedMultiplier` with
`UPDATE_INTERVAL = 100`. -/
def TIME_INCREMENT (speedMultiplier : ℚ) : ℚ := 100 / 1000 * speedMultiplier

/-- One tick of the driver loop: advance time by the increment; if the
new time reaches `cookTime`, stop without invoking the engine and pin
`simTime` to exactly `cookTime`; otherwise invoke the engine at the new
time, append the sample, record the events, and carry the latches. -/
def tick (grain : GrainProfile) (speedMultiplier : ℚ) (st : DriverState) :
    DriverState :=
  if st.isRunning then
    let newTime := st.simTime + TIME_INCREMENT speedMultiplier
    let cookTime := grain.optimal_cook_time * 60
    if newTime ≥ cookTime then
      { st with isRunning := false, simTime := cookTime }
    else
      let r := simulateCooking grain newTime st.latch
      { simTime := newTime
        data := st.data ++ [r.sample]
        decisions := recordEvents st.decisions r.events
        latch := r.latch
        isRunning := st.isRunning }
  else st

/-- `n` consecutive driver ticks. -/
def tickN (grain : GrainProfile) (speedMultiplier : ℚ) :
    ℕ → DriverState → DriverState
  | 0, st => st
  | n + 1, st => tickN grain speedMultiplier n (tick grain speedMultiplier st)

/-- Modelled from the spec: the Engine interface of spec section 4.2/7,
which "fails with `InvalidTimeError` if `t` is negative or the profile's
`optimal_cook_time` is non-positive".  No such check exists anywhere in
`src/simulator.js`; this definition renders the spec's words so they can
be compared with the code's actual (total) behavior. -/
def simulateCookingSpec (grain : GrainProfile) (time : ℚ)
    (latch : LatchState) : Except String EngineResult :=
  if time < 0 ∨ grain.optimal_cook_time ≤ 0 then
    Except.error "InvalidTimeError"
  else
    Except.ok (simulateCooking grain time latch)

/-- A degenerate profile with non-positive `optimal_cook_time`, used as a
concrete test input. -/
def zeroCookProfile : GrainProfile :=
  { basmati_rice with optimal_cook_time := 0 }

end GrainSim


namespace GrainSim

lemma simulateCooking_phase (grain : GrainProfile) (time : ℚ)
    (latch : LatchState) :
    (simulateCooking grain time latch).sample.phase = phaseAt grain time := by
  simp only [simulateCooking, phaseAt, cookTime]
  split_ifs <;> rfl

set_option maxHeartbeats 1000000 in
lemma simulateCooking_gel (grain : GrainProfile) (time : ℚ)
    (latch : LatchState) :
    (simulateCooking grain time latch).sample.gelatinizationProgress =
      gelProgress grain time := by
  simp only [simulateCooking, gelProgress, cookTime]
  split_ifs <;> rfl

set_option maxHeartbeats 1000000 in
lemma simulateCooking_moisture (grain : GrainProfile) (time : ℚ)
    (latch : LatchState) :
    (simulateCooking grain time latch).sample.moisture =
      moistureAt grain time := by
  simp only [simulateCooking, moistureAt, cookTime]
  split_ifs <;> rfl

set_option maxHeartbeats 1600000 in
lemma sample_latch_irrel (grain : GrainProfile) (time : ℚ)
    (latch latch' : LatchState) :
    (simulateCooking grain time latch).sample =
      (simulateCooking grain time latch').sample := by
  simp only [simulateCooking]
  split_ifs <;> rfl

/-- `tenths` of small concrete inputs, used to discharge witnesses. -/
lemma tenths_zero : tenths 0 = 0 := by
  simp [tenths]

lemma tenths_one_sixtieth : tenths (1 / 60) = 0 := by
  rw [tenths, round_eq]
  rw [show (10:ℚ) * (1 / 60) + 1 / 2 = 2 / 3 by norm_num]
  rw [Int.floor_eq_iff]
  norm_num

/-- Claim C5: invoking the engine twice with identical
`(profile, t, latchState)` yields identical samples and identical
candidate event lists — the engine is a pure, deterministic function of
its inputs. -/
theorem engine_deterministic (grain grain' : GrainProfile) (t t' : ℚ)
    (latch latch' : LatchState) (hg : grain = grain') (ht : t = t')
    (hl : latch = latch') :
    (simulateCooking grain t latch).sample =
        (simulateCooking grain' t' latch').sample ∧
      (simulateCooking grain t latch).events =
        (simulateCooking grain' t' latch').events := by
  subst hg; subst ht; subst hl; exact ⟨rfl, rfl⟩

/-- Witness for `engine_deterministic` at a concrete input. -/
theorem engine_deterministic_witness :
    (simulateCooking basmati_rice 0 initialLatch).sample =
        (simulateCooking basmati_rice 0 initialLatch).sample ∧
      (simulateCooking basmati_rice 0 initialLatch).events =
        (simulateCooking basmati_rice 0 initialLatch).events :=
  engine_deterministic basmati_rice basmati_rice 0 0 initialLatch initialLatch
    rfl rfl rfl

/-- Claim C7: `addDecision` appends its entry at the end of the log if and
only if no existing entry's time rounds to the same 0.1-minute bucket;
when such an entry exists the log is left unchanged regardless of the
message; and clearing empties the log. -/
theorem addDecision_contract :
    (∀ (log : List DecisionEntry) (t : ℚ) (m : Event),
      (addDecision log t m = log ++ [{ time := t / 60, message := m }] ↔
        ∀ e ∈ log, tenths e.time ≠ tenths (t / 60)) ∧
      ((∃ e ∈ log, tenths e.time = tenths (t / 60)) →
        addDecision log t m = log)) ∧
    clearDecisions = [] := by
  refine ⟨fun log t m => ?_, rfl⟩
  by_cases hex : ∃ e ∈ log, tenths e.time = tenths (t / 60)
  · have hany : (log.any fun d => decide (tenths d.time = tenths (t / 60)))
        = true := by
      simp only [List.any_eq_true, decide_eq_true_eq]
      exact hex
    refine ⟨?_, fun _ => ?_⟩
    · rw [addDecision]
      simp only [hany, if_true]
      constructor
      · intro h
        exact absurd (congrArg List.length h) (by simp)
      · intro h
        rcases hex with ⟨e, he, hkey⟩
        exact absurd hkey (h e he)
    · rw [addDecision]
      simp only [hany, if_true]
  · push_neg at hex
    have hany : (log.any fun d => decide (tenths d.time = tenths (t / 60)))
        = false := by
      simp only [List.any_eq_false, decide_eq_true_eq]
      exact hex
    refine ⟨?_, fun hcontra => ?_⟩
    · rw [addDecision]
      simp only [hany, Bool.false_eq_true, if_false]
      exact iff_of_true (by trivial) hex
    · rcases hcontra with ⟨e, he, hkey⟩
      exact absurd hkey (hex e he)

/-- Witness for `addDecision_contract`: a same-bucket entry (previous
entry at 0.0 min, new event at 1 s = 0.0167 min, same 0.1-minute bucket)
suppresses recording. -/
theorem addDecision_contract_witness :
    addDecision [{ time := 0, message := Event.transferVessel }] 1
        (Event.gelComplete 1650) =
      [{ time := 0, message := Event.transferVessel }] :=
  (addDecision_contract.1 [{ time := 0, message := Event.transferVessel }] 1
      (Event.gelComplete 1650)).2
    ⟨{ time := 0, message := Event.transferVessel }, by simp,
      by show tenths (0 : ℚ) = tenths (1 / 60)
         rw [tenths_zero, tenths_one_sixtieth]⟩

/-- Claim C9: the reported water requirement is `weight × ratio(id)` with
the fixed per-grain ratios and a default of 2.0 for unregistered ids; for
chickpeas at 150 g it is 450.  Weights in the program are positive
integers (`parseInt` clamped to at least 1), for which the `toFixed(1)`
display rounding is exact. -/
theorem water_required_spec (n : ℕ) :
    calculateWaterRequired "basmati_rice" n = n * 1.5 ∧
    calculateWaterRequired "chickpeas" n = n * 3.0 ∧
    calculateWaterRequired "lentils" n = n * 2.5 ∧
    calculateWaterRequired "quinoa" n = n * 2.0 ∧
    (∀ id : String, id ≠ "basmati_rice" → id ≠ "chickpeas" →
      id ≠ "lentils" → id ≠ "quinoa" →
      calculateWaterRequired id n = n * 2.0) ∧
    calculateWaterRequired "chickpeas" 150 = 450 := by
  have key : ∀ r : ℚ, ∀ k : ℤ, 10 * r = k → ∀ m : ℚ, m = n →
      (round (10 * (m * r)) : ℚ) / 10 = m * r := by
    intro r k hk m hm
    have h10 : (10 : ℚ) * (m * r) = ((k * n : ℤ) : ℚ) := by
      push_cast
      rw [hm]
      nlinarith [hk]
    rw [h10, round_intCast]
    push_cast
    rw [hm]
    nlinarith [hk]
  refine ⟨?_, ?_, ?_, ?_, fun id h1 h2 h3 h4 => ?_, ?_⟩
  · rw [show calculateWaterRequired "basmati_rice" n =
        (round (10 * ((n : ℚ) * 1.5)) : ℚ) / 10 from rfl]
    exact key 1.5 15 (by norm_num) n rfl
  · rw [show calculateWaterRequired "chickpeas" n =
        (round (10 * ((n : ℚ) * 3.0)) : ℚ) / 10 from rfl]
    exact key 3.0 30 (by norm_num) n rfl
  · rw [show calculateWaterRequired "lentils" n =
        (round (10 * ((n : ℚ) * 2.5)) : ℚ) / 10 from rfl]
    exact key 2.5 25 (by norm_num) n rfl
  · rw [show calculateWaterRequired "quinoa" n =
        (round (10 * ((n : ℚ) * 2.0)) : ℚ) / 10 from rfl]
    exact key 2.0 20 (by norm_num) n rfl
  · rw [calculateWaterRequired, waterRatios]
    simp only [if_neg h1, if_neg h2, if_neg h3, if_neg h4, Option.getD_none]
    exact key 2.0 20 (by norm_num) n rfl
  · rw [show calculateWaterRequired "chickpeas" 150 =
        (round (10 * ((150 : ℚ) * 3.0)) : ℚ) / 10 from rfl]
    rw [show (10 : ℚ) * ((150 : ℚ) * 3.0) = ((4500 : ℤ) : ℚ) by norm_num]
    rw [round_intCast]
    norm_num

/-- Witness for `water_required_spec` at weight 150 and an unregistered
id. -/
theorem water_required_spec_witness :
    calculateWaterRequired "chickpeas" (150 : ℕ) = (150 : ℕ) * 3.0 ∧
      calculateWaterRequired "barley" (150 : ℕ) = (150 : ℕ) * 2.0 :=
  ⟨(water_required_spec 150).2.1,
    (water_required_spec 150).2.2.2.2.1 "barley" (by decide) (by decide)
      (by decide) (by decide)⟩

/-- Claim C1: for cookTime > 0 the engine assigns exactly one phase to
every elapsed time in `[0, cookTime]`, determined by the fraction
`t / cookTime` (MICROWAVE on [0,0.45), TRANSFER on [0.45,0.48), PRESSURE
on [0.48,0.85), COOLING on [0.85,0.95), DONE on [0.95,1]), and the phase
is non-decreasing as `t` increases. -/
theorem phase_total_and_monotone (grain : GrainProfile)
    (hc : 0 < grain.optimal_cook_time) :
    (∀ (t : ℚ) (latch : LatchState),
      (simulateCooking grain t latch).sample.phase = phaseAt grain t) ∧
    (∀ t : ℚ, 0 ≤ t → t ≤ cookTime grain →
      (phaseAt grain t = Phase.MICROWAVE ↔
        0 ≤ t / cookTime grain ∧ t / cookTime grain < 0.45) ∧
      (phaseAt grain t = Phase.TRANSFER ↔
        0.45 ≤ t / cookTime grain ∧ t / cookTime grain < 0.48) ∧
      (phaseAt grain t = Phase.PRESSURE ↔
        0.48 ≤ t / cookTime grain ∧ t / cookTime grain < 0.85) ∧
      (phaseAt grain t = Phase.COOLING ↔
        0.85 ≤ t / cookTime grain ∧ t / cookTime grain < 0.95) ∧
      (phaseAt grain t = Phase.DONE ↔
        0.95 ≤ t / cookTime grain ∧ t / cookTime grain ≤ 1)) ∧
    (∀ t t' : ℚ, 0 ≤ t → t ≤ t' → t' ≤ cookTime grain →
      phaseIdx (phaseAt grain t) ≤ phaseIdx (phaseAt grain t')) := by
  have hC : (0 : ℚ) < cookTime grain := by
    rw [cookTime]
    exact mul_pos hc (by norm_num)
  refine ⟨fun t latch => simulateCooking_phase grain t latch,
    fun t ht0 ht1 => ?_, fun t t' ht0 htt ht1 => ?_⟩
  · simp only [div_lt_iff₀ hC, le_div_iff₀ hC, div_le_one hC, zero_mul]
    unfold phaseAt
    split_ifs with h1 h2 h3 h4 <;>
      refine ⟨?_, ?_, ?_, ?_, ?_⟩ <;> constructor
    all_goals first
      | (intro h; exact absurd h (by decide))
      | (rintro ⟨ha, hb⟩; rfl)
      | (intro h; constructor <;> linarith)
      | (rintro ⟨ha, hb⟩; exfalso; linarith)
  · unfold phaseAt
    split_ifs <;> simp only [phaseIdx]
    all_goals try norm_num
    all_goals exfalso
    all_goals linarith

/-- Witness for `phase_total_and_monotone` on basmati rice. -/
theorem phase_total_and_monotone_witness :
    (simulateCooking basmati_rice 300 initialLatch).sample.phase =
        phaseAt basmati_rice 300 ∧
      phaseIdx (phaseAt basmati_rice 100) ≤
        phaseIdx (phaseAt basmati_rice 500) :=
  ⟨(phase_total_and_monotone basmati_rice (by norm_num [basmati_rice])).1 300
      initialLatch,
    (phase_total_and_monotone basmati_rice (by norm_num [basmati_rice])).2.2
      100 500 (by norm_num) (by norm_num)
      (by norm_num [cookTime, basmati_rice])⟩

/-- Claim C6: moisture starts at `initial_moisture` and ends at
`target_moisture - 2`; on basmati rice (cookTime 600 s) moisture(0) = 12
and moisture(600) = 63 with gelatinizationProgress 100 and phase DONE.
Arithmetic over `ℚ` is exact, so no floating tolerance is needed. -/
theorem moisture_boundary_values (grain : GrainProfile)
    (hc : 0 < grain.optimal_cook_time) :
    (∀ latch : LatchState,
      (simulateCooking grain 0 latch).sample.moisture =
        grain.initial_moisture) ∧
    (∀ latch : LatchState,
      (simulateCooking grain (cookTime grain) latch).sample.moisture =
        grain.target_moisture - 2) ∧
    (simulateCooking basmati_rice 0 initialLatch).sample.moisture = 12 ∧
    (simulateCooking basmati_rice 600 initialLatch).sample.moisture = 63 ∧
    (simulateCooking basmati_rice 600
        initialLatch).sample.gelatinizationProgress = 100 ∧
    (simulateCooking basmati_rice 600 initialLatch).sample.phase =
      Phase.DONE := by
  have hC : (0 : ℚ) < cookTime grain := by
    rw [cookTime]
    exact mul_pos hc (by norm_num)
  refine ⟨fun latch => ?_, fun latch => ?_, ?_, ?_, ?_, ?_⟩
  · rw [simulateCooking_moisture, moistureAt,
      if_pos (show (0 : ℚ) < cookTime grain * 0.45 by nlinarith)]
    rw [zero_div, mul_zero, add_zero]
  · have hlt : ∀ x : ℚ, x < 1 → ¬ cookTime grain < cookTime grain * x := by
      intro x hx
      rw [not_lt]
      nlinarith
    rw [simulateCooking_moisture, moistureAt,
      if_neg (hlt 0.45 (by norm_num)), if_neg (hlt 0.48 (by norm_num)),
      if_neg (hlt 0.85 (by norm_num))]
    have h15 : cookTime grain * 0.15 ≠ 0 :=
      ne_of_gt (mul_pos hC (by norm_num))
    rw [show (cookTime grain - cookTime grain * 0.85) /
        (cookTime grain * 0.15) = 1 from by
      rw [div_eq_one_iff_eq h15]; ring]
    ring
  · norm_num [simulateCooking, basmati_rice, initialLatch]
  · norm_num [simulateCooking, basmati_rice, initialLatch]
  · norm_num [simulateCooking, basmati_rice, initialLatch]
  · norm_num [simulateCooking, basmati_rice, initialLatch]

/-- Witness for `moisture_boundary_values` on basmati rice. -/
theorem moisture_boundary_values_witness :
    (simulateCooking basmati_rice 0 initialLatch).sample.moisture =
        basmati_rice.initial_moisture ∧
      (simulateCooking basmati_rice (cookTime basmati_rice)
          initialLatch).sample.moisture = basmati_rice.target_moisture - 2 :=
  ⟨(moisture_boundary_values basmati_rice (by norm_num [basmati_rice])).1
      initialLatch,
    (moisture_boundary_values basmati_rice
      (by norm_num [basmati_rice])).2.1 initialLatch⟩

/-- Claim C4 counterexample: the code performs no time validation.  At
`t = -1` (negative) the spec-modelled engine fails with
`InvalidTimeError`, but the code returns an ordinary MICROWAVE sample;
with a non-positive `optimal_cook_time` at `t = 0` the code returns an
ordinary DONE sample. -/
theorem invalid_time_unchecked_cex :
    simulateCookingSpec basmati_rice (-1) initialLatch =
        Except.error "InvalidTimeError" ∧
      (simulateCooking basmati_rice (-1) initialLatch).sample.phase =
        Phase.MICROWAVE ∧
      (simulateCooking basmati_rice (-1) initialLatch).sample.moisture =
        12 + (45 - 12) * (-1 / 270) ∧
      simulateCookingSpec zeroCookProfile 0 initialLatch =
        Except.error "InvalidTimeError" ∧
      (simulateCooking zeroCookProfile 0 initialLatch).sample.phase =
        Phase.DONE := by
  refine ⟨?_, ?_, ?_, ?_, ?_⟩ <;>
    norm_num [simulateCookingSpec, simulateCooking, basmati_rice,
      zeroCookProfile, initialLatch]

/-- Claim C4, amended: the engine never fails — it has no validation at
all.  On the spec's invalid domain (negative `t` or non-positive
`optimal_cook_time`) the spec-modelled engine errors, while the code
still returns a sample: a MICROWAVE-branch sample for negative `t`, a
DONE-branch sample for non-positive cook time. -/
theorem engine_no_time_validation (grain : GrainProfile) (t : ℚ)
    (latch : LatchState) (h : t < 0 ∨ grain.optimal_cook_time ≤ 0) :
    simulateCookingSpec grain t latch = Except.error "InvalidTimeError" ∧
      (t < 0 → 0 < grain.optimal_cook_time →
        (simulateCooking grain t latch).sample.phase = Phase.MICROWAVE) ∧
      (0 ≤ t → grain.optimal_cook_time ≤ 0 →
        (simulateCooking grain t latch).sample.phase = Phase.DONE) := by
  refine ⟨by rw [simulateCookingSpec, if_pos h], fun ht hc => ?_,
    fun ht hc => ?_⟩
  · have hpos : (0 : ℚ) < cookTime grain * 0.45 := by
      rw [cookTime]
      nlinarith
    rw [simulateCooking_phase, phaseAt, if_pos (by linarith)]
  · have hnp : cookTime grain ≤ 0 := by
      rw [cookTime]
      linarith
    have hx : ∀ x : ℚ, 0 < x → ¬ t < cookTime grain * x := by
      intro x hxp
      rw [not_lt]
      nlinarith
    rw [simulateCooking_phase, phaseAt, if_neg (hx 0.45 (by norm_num)),
      if_neg (hx 0.48 (by norm_num)), if_neg (hx 0.85 (by norm_num)),
      if_neg (hx 0.95 (by norm_num))]

/-- Witness for `engine_no_time_validation` at the two failing inputs. -/
theorem engine_no_time_validation_witness :
    (simulateCooking basmati_rice (-1) initialLatch).sample.phase =
        Phase.MICROWAVE ∧
      (simulateCooking zeroCookProfile 0 initialLatch).sample.phase =
        Phase.DONE :=
  ⟨(engine_no_time_validation basmati_rice (-1) initialLatch
      (Or.inl (by norm_num))).2.1 (by norm_num)
      (by norm_num [basmati_rice]),
    (engine_no_time_validation zeroCookProfile 0 initialLatch
      (Or.inr (by norm_num [zeroCookProfile, basmati_rice]))).2.2
      (by norm_num) (by norm_num [zeroCookProfile, basmati_rice])⟩

/-- Claim C3 counterexample: at `t = 0` with all latches false the engine
does emit two events (NIR scan and composition), but recording them into
an empty Decision Log leaves only ONE entry — both fall in the 0.1-minute
bucket of time 0 and the dedup suppresses the second. -/
theorem nir_composition_two_entries_cex :
    ((simulateCooking basmati_rice 0 initialLatch).events).length = 2 ∧
      (recordEvents []
        (simulateCooking basmati_rice 0 initialLatch).events).length = 1 := by
  constructor <;>
    norm_num [simulateCooking, basmati_rice, initialLatch, recordEvents,
      addDecision, tenths]

/-- Claim C3, amended: at `t = 0` with the `nirScanLogged` latch false
(and a valid profile whose onset is above 25 °C) the engine emits exactly
the NIR-scan event and the composition event, in that order; but after
the Decision Log records them it contains only one entry — the NIR-scan
entry — because the composition event shares the time-0 bucket and is
deduplicated away. -/
theorem nir_scan_composition_single_entry (grain : GrainProfile)
    (latch : LatchState) (hn : latch.nirScanLogged = false)
    (hc : 0 < grain.optimal_cook_time)
    (ho : 25 < grain.gelatinization_onset) :
    (simulateCooking grain 0 latch).events =
      [(0, Event.nirScan grain.nir_970 grain.nir_1450 grain.nir_1680
          grain.nir_1200 grain.nir_2100),
       (0, Event.composition grain.initial_moisture grain.starch
          grain.protein grain.amylose grain.amylopectin)] ∧
    recordEvents [] (simulateCooking grain 0 latch).events =
      [{ time := 0, message := Event.nirScan grain.nir_970 grain.nir_1450
          grain.nir_1680 grain.nir_1200 grain.nir_2100 }] := by
  have hpos : (0 : ℚ) < grain.optimal_cook_time * 60 * 0.45 := by nlinarith
  have hev : (simulateCooking grain 0 latch).events =
      [(0, Event.nirScan grain.nir_970 grain.nir_1450 grain.nir_1680
          grain.nir_1200 grain.nir_2100),
       (0, Event.composition grain.initial_moisture grain.starch
          grain.protein grain.amylose grain.amylopectin)] := by
    have hne : ¬ grain.gelatinization_onset ≤ 25 := not_le.mpr ho
    simp only [simulateCooking, hn]
    rw [if_pos hpos]
    norm_num [zero_div, hne]
  refine ⟨hev, ?_⟩
  rw [hev]
  norm_num [recordEvents, addDecision, tenths]

/-- Witness for `nir_scan_composition_single_entry` on basmati rice. -/
theorem nir_scan_composition_single_entry_witness :
    recordEvents [] (simulateCooking basmati_rice 0 initialLatch).events =
      [{ time := 0, message := Event.nirScan basmati_rice.nir_970
          basmati_rice.nir_1450 basmati_rice.nir_1680 basmati_rice.nir_1200
          basmati_rice.nir_2100 }] :=
  (nir_scan_composition_single_entry basmati_rice initialLatch rfl
    (by norm_num [basmati_rice]) (by norm_num [basmati_rice])).2

lemma gelProgress_mw (grain : GrainProfile) (t : ℚ)
    (h : t < cookTime grain * 0.45) :
    gelProgress grain t =
      (if 25 + (grain.gelatinization_temp + 15) *
            (t / (cookTime grain * 0.45)) ≥ grain.gelatinization_onset then
        max 0 (min 60 ((t / (cookTime grain * 0.45) -
            (grain.gelatinization_onset - 25) /
              (grain.gelatinization_temp + 15 - 25)) /
          (1 - (grain.gelatinization_onset - 25) /
              (grain.gelatinization_temp + 15 - 25)) * 60))
      else 0) := by
  rw [gelProgress, if_pos h]

lemma gelProgress_transfer (grain : GrainProfile) (t : ℚ)
    (h1 : ¬ t < cookTime grain * 0.45) (h2 : t < cookTime grain * 0.48) :
    gelProgress grain t = 60 := by
  rw [gelProgress, if_neg h1, if_pos h2]

lemma gelProgress_pressure (grain : GrainProfile) (t : ℚ)
    (h1 : ¬ t < cookTime grain * 0.45) (h2 : ¬ t < cookTime grain * 0.48)
    (h3 : t < cookTime grain * 0.85) :
    gelProgress grain t =
      60 + 40 * ((t - cookTime grain * 0.48) / (cookTime grain * 0.37)) := by
  rw [gelProgress, if_neg h1, if_neg h2, if_pos h3]

lemma gelProgress_cool (grain : GrainProfile) (t : ℚ)
    (h1 : ¬ t < cookTime grain * 0.45) (h2 : ¬ t < cookTime grain * 0.48)
    (h3 : ¬ t < cookTime grain * 0.85) :
    gelProgress grain t = 100 := by
  rw [gelProgress, if_neg h1, if_neg h2, if_neg h3]

lemma gelProgress_mw_bounds (grain : GrainProfile) (t : ℚ)
    (h : t < cookTime grain * 0.45) :
    0 ≤ gelProgress grain t ∧ gelProgress grain t ≤ 60 := by
  rw [gelProgress_mw grain t h]
  split_ifs with hcond
  · exact ⟨le_max_left 0 _, max_le (by norm_num) (min_le_left _ _)⟩
  · norm_num

lemma gelProgress_pressure_bounds (grain : GrainProfile) (t : ℚ)
    (h1 : ¬ t < cookTime grain * 0.45) (h2 : ¬ t < cookTime grain * 0.48)
    (h3 : t < cookTime grain * 0.85) :
    60 ≤ gelProgress grain t ∧ gelProgress grain t ≤ 100 := by
  push_neg at h1 h2
  have h37 : 0 < cookTime grain * 0.37 := by linarith
  have hp0 : 0 ≤ (t - cookTime grain * 0.48) / (cookTime grain * 0.37) :=
    div_nonneg (by linarith) h37.le
  have hp1 : (t - cookTime grain * 0.48) / (cookTime grain * 0.37) ≤ 1 := by
    rw [div_le_one h37]
    linarith
  rw [gelProgress_pressure grain t (not_lt.mpr h1) (not_lt.mpr h2) h3]
  constructor <;> linarith

lemma gelProgress_bounds (grain : GrainProfile) (t : ℚ) :
    0 ≤ gelProgress grain t ∧ gelProgress grain t ≤ 100 := by
  rcases lt_or_le t (cookTime grain * 0.45) with h1 | h1
  · have hb := gelProgress_mw_bounds grain t h1
    exact ⟨hb.1, le_trans hb.2 (by norm_num)⟩
  · rcases lt_or_le t (cookTime grain * 0.48) with h2 | h2
    · rw [gelProgress_transfer grain t (not_lt.mpr h1) h2]
      norm_num
    · rcases lt_or_le t (cookTime grain * 0.85) with h3 | h3
      · have hb := gelProgress_pressure_bounds grain t (not_lt.mpr h1)
          (not_lt.mpr h2) h3
        exact ⟨le_trans (by norm_num) hb.1, hb.2⟩
      · rw [gelProgress_cool grain t (not_lt.mpr h1) (not_lt.mpr h2)
          (not_lt.mpr h3)]
        norm_num

lemma gelProgress_mw_mono (grain : GrainProfile)
    (ho : 0 < grain.gelatinization_onset)
    (hog : grain.gelatinization_onset ≤ grain.gelatinization_temp)
    (t t' : ℚ) (ht0 : 0 ≤ t) (htt : t ≤ t')
    (ht' : t' < cookTime grain * 0.45) :
    gelProgress grain t ≤ gelProgress grain t' := by
  have hA : (0 : ℚ) < cookTime grain * 0.45 := by linarith
  have hta : t < cookTime grain * 0.45 := lt_of_le_of_lt htt ht'
  rw [gelProgress_mw grain t hta, gelProgress_mw grain t' ht']
  set o := grain.gelatinization_onset with ho_def
  set G := grain.gelatinization_temp with hG_def
  set p := t / (cookTime grain * 0.45) with hp_def
  set q := t' / (cookTime grain * 0.45) with hq_def
  have hGpos : (0 : ℚ) < G + 15 := by linarith
  have hpp : p ≤ q := by
    rw [hp_def, hq_def, div_le_div_iff_of_pos_right hA]
    exact htt
  have hq1 : q < 1 := by
    rw [hq_def, div_lt_one hA]
    exact ht'
  have hp1 : p ≤ 1 := le_of_lt (lt_of_le_of_lt hpp hq1)
  have htemp : 25 + (G + 15) * p ≤ 25 + (G + 15) * q := by nlinarith
  by_cases hc2 : 25 + (G + 15) * q ≥ o
  · rw [if_pos hc2]
    by_cases hcT : 25 + (G + 15) * p ≥ o
    · rw [if_pos hcT]
      set D := G + 15 - 25 with hD_def
      rcases lt_trichotomy D 0 with hD | hD | hD
      · have hopgt : 1 < (o - 25) / D := by
          rw [lt_div_iff_of_neg hD]
          have : o < G + 15 := by linarith
          linarith [hD_def ▸ hD]
        have h1op : 1 - (o - 25) / D < 0 := by linarith
        have key : ∀ q : ℚ, q ≤ 1 →
            (60 : ℚ) ≤ (q - (o - 25) / D) / (1 - (o - 25) / D) * 60 := by
          intro q hq
          have h1 : (1 : ℚ) ≤ (q - (o - 25) / D) / (1 - (o - 25) / D) := by
            rw [le_div_iff_of_neg h1op]
            linarith
          nlinarith
        rw [min_eq_left (key p hp1), min_eq_left (key q (le_of_lt hq1))]
      · have hop0 : (o - 25) / D = 0 := by
          rw [hD, div_zero]
        rw [hop0]
        simp only [sub_zero, div_one]
        have hm : p * 60 ≤ q * 60 := by linarith
        exact max_le_max (le_refl 0) (min_le_min (le_refl 60) hm)
      · have hop1 : (o - 25) / D < 1 := by
          rw [div_lt_one hD]
          have : o < G + 15 := by linarith
          linarith [hD_def ▸ hD]
        have h1op : (0 : ℚ) < 1 - (o - 25) / D := by linarith
        have hmono : (p - (o - 25) / D) / (1 - (o - 25) / D) * 60 ≤
            (q - (o - 25) / D) / (1 - (o - 25) / D) * 60 := by
          have hnum : p - (o - 25) / D ≤ q - (o - 25) / D := by linarith
          have hdiv := (div_le_div_iff_of_pos_right h1op).mpr hnum
          nlinarith
        exact max_le_max (le_refl 0) (min_le_min (le_refl 60) hmono)
    · rw [if_neg hcT]
      exact le_max_left 0 _
  · rw [if_neg hc2, if_neg (fun hcc => hc2 (le_trans hcc htemp))]

lemma phaseAt_mw_iff (grain : GrainProfile) (t : ℚ) :
    phaseAt grain t = Phase.MICROWAVE ↔ t < cookTime grain * 0.45 := by
  rw [phaseAt]
  split_ifs <;> simp_all

lemma phaseAt_transfer_iff (grain : GrainProfile) (t : ℚ) :
    phaseAt grain t = Phase.TRANSFER ↔
      ¬ t < cookTime grain * 0.45 ∧ t < cookTime grain * 0.48 := by
  rw [phaseAt]
  split_ifs <;> simp_all

lemma phaseAt_pressure_iff (grain : GrainProfile) (t : ℚ) :
    phaseAt grain t = Phase.PRESSURE ↔
      ¬ t < cookTime grain * 0.45 ∧ ¬ t < cookTime grain * 0.48 ∧
        t < cookTime grain * 0.85 := by
  rw [phaseAt]
  split_ifs <;> simp_all

lemma phaseAt_cooling_iff (grain : GrainProfile) (t : ℚ) :
    phaseAt grain t = Phase.COOLING ↔
      ¬ t < cookTime grain * 0.45 ∧ ¬ t < cookTime grain * 0.48 ∧
        ¬ t < cookTime grain * 0.85 ∧ t < cookTime grain * 0.95 := by
  rw [phaseAt]
  split_ifs <;> simp_all

lemma phaseAt_done_iff (grain : GrainProfile) (t : ℚ) :
    phaseAt grain t = Phase.DONE ↔
      ¬ t < cookTime grain * 0.45 ∧ ¬ t < cookTime grain * 0.48 ∧
        ¬ t < cookTime grain * 0.85 ∧ ¬ t < cookTime grain * 0.95 := by
  rw [phaseAt]
  split_ifs <;> simp_all

lemma gelProgress_mono (grain : GrainProfile)
    (ho : 0 < grain.gelatinization_onset)
    (hog : grain.gelatinization_onset ≤ grain.gelatinization_temp)
    (t t' : ℚ) (ht0 : 0 ≤ t) (htt : t ≤ t') :
    gelProgress grain t ≤ gelProgress grain t' := by
  rcases lt_or_le t' (cookTime grain * 0.45) with k1 | k1
  · exact gelProgress_mw_mono grain ho hog t t' ht0 htt k1
  · rcases lt_or_le t' (cookTime grain * 0.48) with k2 | k2
    · rw [gelProgress_transfer grain t' (not_lt.mpr k1) k2]
      rcases lt_or_le t (cookTime grain * 0.45) with h1 | h1
      · exact (gelProgress_mw_bounds grain t h1).2
      · rw [gelProgress_transfer grain t (not_lt.mpr h1)
          (lt_of_le_of_lt htt k2)]
    · rcases lt_or_le t' (cookTime grain * 0.85) with k3 | k3
      · have hb' := gelProgress_pressure_bounds grain t' (not_lt.mpr k1)
          (not_lt.mpr k2) k3
        rcases lt_or_le t (cookTime grain * 0.45) with h1 | h1
        · exact le_trans (gelProgress_mw_bounds grain t h1).2 hb'.1
        · rcases lt_or_le t (cookTime grain * 0.48) with h2 | h2
          · rw [gelProgress_transfer grain t (not_lt.mpr h1) h2]
            exact hb'.1
          · have h3 : t < cookTime grain * 0.85 := lt_of_le_of_lt htt k3
            rw [gelProgress_pressure grain t (not_lt.mpr h1)
                (not_lt.mpr h2) h3,
              gelProgress_pressure grain t' (not_lt.mpr k1)
                (not_lt.mpr k2) k3]
            have h37 : (0 : ℚ) < cookTime grain * 0.37 := by linarith
            have hnum : t - cookTime grain * 0.48 ≤
                t' - cookTime grain * 0.48 := by linarith
            have hdiv := (div_le_div_iff_of_pos_right h37).mpr hnum
            linarith
      · rw [gelProgress_cool grain t' (not_lt.mpr k1) (not_lt.mpr k2)
          (not_lt.mpr k3)]
        exact (gelProgress_bounds grain t).2

/-- Claim C2: for every profile with `0 < gelatinization_onset ≤
gelatinization_temp`, the engine's gelatinizationProgress is
non-decreasing in `t` over `[0, cookTime]` and always in `[0, 100]`,
clamped to at most 60 in MICROWAVE, fixed at 60 in TRANSFER, `60 + 40·p`
in PRESSURE, and held at 100 in COOLING/DONE. -/
theorem gel_bounds_monotone (grain : GrainProfile)
    (ho : 0 < grain.gelatinization_onset)
    (hog : grain.gelatinization_onset ≤ grain.gelatinization_temp) :
    (∀ (t : ℚ) (latch : LatchState),
      (simulateCooking grain t latch).sample.gelatinizationProgress =
        gelProgress grain t) ∧
    (∀ t : ℚ, 0 ≤ t → t ≤ cookTime grain →
      0 ≤ gelProgress grain t ∧ gelProgress grain t ≤ 100) ∧
    (∀ t t' : ℚ, 0 ≤ t → t ≤ t' → t' ≤ cookTime grain →
      gelProgress grain t ≤ gelProgress grain t') ∧
    (∀ t : ℚ,
      (phaseAt grain t = Phase.MICROWAVE → gelProgress grain t ≤ 60) ∧
      (phaseAt grain t = Phase.TRANSFER → gelProgress grain t = 60) ∧
      (phaseAt grain t = Phase.PRESSURE → gelProgress grain t =
        60 + 40 * ((t - cookTime grain * 0.48) / (cookTime grain * 0.37))) ∧
      ((phaseAt grain t = Phase.COOLING ∨ phaseAt grain t = Phase.DONE) →
        gelProgress grain t = 100)) := by
  refine ⟨fun t latch => simulateCooking_gel grain t latch,
    fun t _ _ => gelProgress_bounds grain t,
    fun t t' ht0 htt _ => gelProgress_mono grain ho hog t t' ht0 htt,
    fun t => ⟨?_, ?_, ?_, ?_⟩⟩
  · intro h
    exact (gelProgress_mw_bounds grain t ((phaseAt_mw_iff grain t).mp h)).2
  · intro h
    rcases (phaseAt_transfer_iff grain t).mp h with ⟨h1, h2⟩
    exact gelProgress_transfer grain t h1 h2
  · intro h
    rcases (phaseAt_pressure_iff grain t).mp h with ⟨h1, h2, h3⟩
    exact gelProgress_pressure grain t h1 h2 h3
  · intro h
    rcases h with h | h
    · rcases (phaseAt_cooling_iff grain t).mp h with ⟨h1, h2, h3, -⟩
      exact gelProgress_cool grain t h1 h2 h3
    · rcases (phaseAt_done_iff grain t).mp h with ⟨h1, h2, h3, -⟩
      exact gelProgress_cool grain t h1 h2 h3

/-- Witness for `gel_bounds_monotone` on basmati rice. -/
theorem gel_bounds_monotone_witness :
    (0 ≤ gelProgress basmati_rice 300 ∧ gelProgress basmati_rice 300 ≤ 100) ∧
      gelProgress basmati_rice 100 ≤ gelProgress basmati_rice 500 :=
  ⟨(gel_bounds_monotone basmati_rice (by norm_num [basmati_rice])
      (by norm_num [basmati_rice])).2.1 300 (by norm_num)
      (by norm_num [cookTime, basmati_rice]),
    (gel_bounds_monotone basmati_rice (by norm_num [basmati_rice])
      (by norm_num [basmati_rice])).2.2.1 100 500 (by norm_num)
      (by norm_num) (by norm_num [cookTime, basmati_rice])⟩

lemma countEvents_append (p : Event → Bool) (a b : List (ℚ × Event)) :
    countEvents p (a ++ b) = countEvents p a + countEvents p b := by
  simp [countEvents, List.filter_append]

set_option maxHeartbeats 1600000 in
lemma step_budget_nir (grain : GrainProfile) (t : ℚ) (latch : LatchState) :
    countEvents isNirScan (simulateCooking grain t latch).events +
      budget (simulateCooking grain t latch).latch.nirScanLogged ≤
        budget latch.nirScanLogged := by
  cases hn : latch.nirScanLogged <;>
    simp only [simulateCooking, hn] <;>
    split_ifs <;>
    simp_all [countEvents, isNirScan, budget, List.filter]

set_option maxHeartbeats 1600000 in
lemma step_budget_composition (grain : GrainProfile) (t : ℚ)
    (latch : LatchState) :
    countEvents isComposition (simulateCooking grain t latch).events +
      budget (simulateCooking grain t latch).latch.nirScanLogged ≤
        budget latch.nirScanLogged := by
  cases hn : latch.nirScanLogged <;>
    simp only [simulateCooking, hn] <;>
    split_ifs <;>
    simp_all [countEvents, isComposition, budget, List.filter]

set_option maxHeartbeats 1600000 in
lemma step_budget_gelOnset (grain : GrainProfile) (t : ℚ)
    (latch : LatchState) :
    countEvents isGelOnset (simulateCooking grain t latch).events +
      budget (simulateCooking grain t latch).latch.gelOnsetLogged ≤
        budget latch.gelOnsetLogged := by
  cases hn : latch.gelOnsetLogged <;>
    simp only [simulateCooking, hn] <;>
    split_ifs <;>
    simp_all [countEvents, isGelOnset, budget, List.filter]

set_option maxHeartbeats 1600000 in
lemma step_budget_transfer (grain : GrainProfile) (t : ℚ)
    (latch : LatchState) :
    countEvents isTransfer (simulateCooking grain t latch).events +
      budget (simulateCooking grain t latch).latch.transferLogged ≤
        budget latch.transferLogged := by
  cases hn : latch.transferLogged <;>
    simp only [simulateCooking, hn] <;>
    split_ifs <;>
    simp_all [countEvents, isTransfer, budget, List.filter]

set_option maxHeartbeats 1600000 in
lemma step_budget_gelComplete (grain : GrainProfile) (t : ℚ)
    (latch : LatchState) :
    countEvents isGelComplete (simulateCooking grain t latch).events +
      budget (simulateCooking grain t latch).latch.gelCompleteLogged ≤
        budget latch.gelCompleteLogged := by
  cases hn : latch.gelCompleteLogged <;>
    simp only [simulateCooking, hn] <;>
    split_ifs <;>
    simp_all [countEvents, isGelComplete, budget, List.filter]

lemma runEngine_budget (grain : GrainProfile) (p : Event → Bool)
    (f : LatchState → Bool)
    (hstep : ∀ (l : LatchState) (t : ℚ),
      countEvents p (simulateCooking grain t l).events +
        budget (f (simulateCooking grain t l).latch) ≤ budget (f l)) :
    ∀ (ts : List ℚ) (l : LatchState),
      countEvents p (runEngine grain l ts).1 +
        budget (f (runEngine grain l ts).2) ≤ budget (f l) := by
  intro ts
  induction ts with
  | nil =>
    intro l
    simp [runEngine, countEvents]
  | cons t ts ih =>
    intro l
    have h1 := ih (simulateCooking grain t l).latch
    have h2 := hstep l t
    simp only [runEngine]
    rw [countEvents_append]
    omega

/-- Claim C8: starting from all-false latches, across any sequence of
engine invocations at non-decreasing times, each of the four latched
one-shot events (NIR scan with its composition companion, gelatinization
onset, vessel transfer, gelatinization complete) is emitted at most
once. -/
theorem latched_events_at_most_once (grain : GrainProfile) (ts : List ℚ)
    (_hmono : ts.Chain' (fun a b => a ≤ b)) :
    countEvents isNirScan (runEngine grain initialLatch ts).1 ≤ 1 ∧
      countEvents isComposition (runEngine grain initialLatch ts).1 ≤ 1 ∧
      countEvents isGelOnset (runEngine grain initialLatch ts).1 ≤ 1 ∧
      countEvents isTransfer (runEngine grain initialLatch ts).1 ≤ 1 ∧
      countEvents isGelComplete (runEngine grain initialLatch ts).1 ≤ 1 := by
  have h1 := runEngine_budget grain isNirScan (fun l => l.nirScanLogged)
    (fun l t => step_budget_nir grain t l) ts initialLatch
  have h2 := runEngine_budget grain isComposition (fun l => l.nirScanLogged)
    (fun l t => step_budget_composition grain t l) ts initialLatch
  have h3 := runEngine_budget grain isGelOnset (fun l => l.gelOnsetLogged)
    (fun l t => step_budget_gelOnset grain t l) ts initialLatch
  have h4 := runEngine_budget grain isTransfer (fun l => l.transferLogged)
    (fun l t => step_budget_transfer grain t l) ts initialLatch
  have h5 := runEngine_budget grain isGelComplete
    (fun l => l.gelCompleteLogged)
    (fun l t => step_budget_gelComplete grain t l) ts initialLatch
  simp only [initialLatch, budget, Bool.false_eq_true, if_false] at h1 h2 h3 h4 h5
  simp only [initialLatch]
  refine ⟨?_, ?_, ?_, ?_, ?_⟩ <;> omega

/-- Witness for `latched_events_at_most_once` on a two-tick run. -/
theorem latched_events_at_most_once_witness :
    countEvents isNirScan (runEngine basmati_rice initialLatch [0, 100]).1
        ≤ 1 ∧
      countEvents isComposition
        (runEngine basmati_rice initialLatch [0, 100]).1 ≤ 1 ∧
      countEvents isGelOnset
        (runEngine basmati_rice initialLatch [0, 100]).1 ≤ 1 ∧
      countEvents isTransfer
        (runEngine basmati_rice initialLatch [0, 100]).1 ≤ 1 ∧
      countEvents isGelComplete
        (runEngine basmati_rice initialLatch [0, 100]).1 ≤ 1 :=
  latched_events_at_most_once basmati_rice [0, 100]
    (by norm_num [List.chain'_cons])

lemma tick_data (grain : GrainProfile) (speedMultiplier : ℚ)
    (st : DriverState) :
    (tick grain speedMultiplier st).data = st.data ∨
    (st.simTime + TIME_INCREMENT speedMultiplier < cookTime grain ∧
      (tick grain speedMultiplier st).data = st.data ++
        [(simulateCooking grain (st.simTime + TIME_INCREMENT speedMultiplier)
            st.latch).sample]) := by
  simp only [tick]
  split_ifs with h1 h2
  · exact Or.inl rfl
  · right
    refine ⟨?_, rfl⟩
    rw [cookTime]
    exact lt_of_not_ge h2
  · exact Or.inl rfl

lemma tickN_data (grain : GrainProfile) (speedMultiplier : ℚ) (n : ℕ)
    (st : DriverState)
    (hinv : ∀ s ∈ st.data, ∃ t : ℚ, t < cookTime grain ∧
      s = (simulateCooking grain t initialLatch).sample) :
    ∀ s ∈ (tickN grain speedMultiplier n st).data, ∃ t : ℚ,
      t < cookTime grain ∧
        s = (simulateCooking grain t initialLatch).sample := by
  induction n generalizing st with
  | zero => exact hinv
  | succ n ih =>
    rw [tickN]
    refine ih (tick grain speedMultiplier st) ?_
    rcases tick_data grain speedMultiplier st with h | ⟨hlt, h⟩
    · rw [h]
      exact hinv
    · rw [h]
      intro s hs
      rcases List.mem_append.mp hs with hs | hs
      · exact hinv s hs
      · rcases List.mem_singleton.mp hs with rfl
        exact ⟨st.simTime + TIME_INCREMENT speedMultiplier, hlt,
          sample_latch_irrel grain _ st.latch initialLatch⟩

/-- Claim C10: the driver's tick loop never produces a sample at or past
`cookTime` — when the incremented time reaches `cookTime` the tick stops
the run, pins `simTime` to exactly `cookTime`, and leaves the series and
log untouched; consequently every sample ever appended to the series was
computed by the engine at a time strictly below `cookTime`. -/
theorem tick_loop_never_reaches_cookTime (grain : GrainProfile)
    (speedMultiplier : ℚ) :
    (∀ st : DriverState, st.isRunning = true →
      cookTime grain ≤ st.simTime + TIME_INCREMENT speedMultiplier →
      tick grain speedMultiplier st =
        { st with isRunning := false, simTime := cookTime grain }) ∧
    (∀ n : ℕ, ∀ s ∈ (tickN grain speedMultiplier n initialDriverState).data,
      ∃ t : ℚ, t < cookTime grain ∧
        s = (simulateCooking grain t initialLatch).sample) := by
  constructor
  · intro st hrun hge
    rw [tick, if_pos hrun, if_pos]
    · rw [cookTime]
    · rw [ge_iff_le, ← cookTime]
      exact hge
  · intro n
    exact tickN_data grain speedMultiplier n initialDriverState
      (by intro s hs; simp [initialDriverState] at hs)

/-- Witness for `tick_loop_never_reaches_cookTime`: a stopping tick near
the end of a basmati run, and the sample appended by the first real tick
of a 10x-speed run. -/
theorem tick_loop_never_reaches_cookTime_witness :
    tick basmati_rice 10
        { simTime := 599.5, data := [], decisions := [],
          latch := initialLatch, isRunning := true } =
      { simTime := cookTime basmati_rice, data := [], decisions := [],
        latch := initialLatch, isRunning := false } ∧
    ∃ t : ℚ, t < cookTime basmati_rice ∧
      (simulateCooking basmati_rice 1 initialLatch).sample =
        (simulateCooking basmati_rice t initialLatch).sample := by
  constructor
  · exact (tick_loop_never_reaches_cookTime basmati_rice 10).1
      { simTime := 599.5, data := [], decisions := [],
        latch := initialLatch, isRunning := true } rfl
      (by norm_num [cookTime, basmati_rice, TIME_INCREMENT])
  · refine (tick_loop_never_reaches_cookTime basmati_rice 10).2 1
      (simulateCooking basmati_rice 1 initialLatch).sample ?_
    show (simulateCooking basmati_rice 1 initialLatch).sample ∈
      (tick basmati_rice 10 initialDriverState).data
    norm_num [tick, initialDriverState, initialLatch, TIME_INCREMENT,
      basmati_rice]

end GrainSim
